import Mathlib

/-!
A shallow embedding of the CHIP-8 emulator core in `src/chip8.cpp`.

Modelling conventions:
* Machine integers become `Nat` with an explicit `% 2^w` at every store into
  a `w`-bit lvalue whose right-hand side can exceed the width
  (`uint8_t` stores take `% 256`, `uint16_t` stores take `% 65536`).
* The C++ arrays (`registers[16]`, `memory[4096]`, `stack[16]`,
  `keypad[16]`, `video[2048]`) are modelled as total functions
  `Nat → Nat`; the fixed C++ sizes are used by the theorems to talk about
  out-of-bounds accesses.
* Undefined behaviour reachable inside one cycle (fetching past the end of
  `memory`, invoking a null pointer-to-member from the dispatch table) is
  surfaced as an explicit `Except` error in `Cycle`.
-/

set_option maxRecDepth 8000

/-- `a[i] = v` on an array modelled as a total function. -/
def writeArr (f : Nat → Nat) (i v : Nat) : Nat → Nat :=
  fun j => if j = i then v else f j

/-- The machine state: the data members of `class Chip8` (src lines 47-57).
`registers`, `memory`, `keypad` hold `uint8_t` values; `stack` holds
`uint16_t` values; `video` holds `uint32_t` values; `index`, `pc`,
`opcode` are `uint16_t`; `sp`, `delayTimer`, `soundTimer` are `uint8_t`. -/
structure Chip8 where
  registers : Nat → Nat
  memory : Nat → Nat
  index : Nat
  pc : Nat
  stack : Nat → Nat
  sp : Nat
  delayTimer : Nat
  soundTimer : Nat
  keypad : Nat → Nat
  video : Nat → Nat
  opcode : Nat

namespace Chip8

/-- The operand extraction `Vx = (opcode & 0x0F00) >> 8` that every
handler repeats verbatim (e.g. src lines 235, 336, 371, 400, 455). -/
def decodeX (op : Nat) : Nat := (op &&& 0x0F00) >>> 8

/-- The operand extraction `Vy = (opcode & 0x00F0) >> 4` that the
two-register handlers repeat verbatim (e.g. src lines 260, 337, 372, 401, 456). -/
def decodeY (op : Nat) : Nat := (op &&& 0x00F0) >>> 4

/-- `fontset` (src lines 14-32): the 16 fixed 5-byte digit glyphs. -/
def fontset : List Nat :=
  [0xF0, 0x90, 0x90, 0x90, 0xF0,
   0x20, 0x60, 0x20, 0x20, 0x70,
   0xF0, 0x10, 0xF0, 0x80, 0xF0,
   0xF0, 0x10, 0xF0, 0x10, 0xF0,
   0x90, 0x90, 0xF0, 0x10, 0x10,
   0xF0, 0x80, 0xF0, 0x10, 0xF0,
   0xF0, 0x80, 0xF0, 0x90, 0xF0,
   0xF0, 0x10, 0x20, 0x40, 0x40,
   0xF0, 0x90, 0xF0, 0x90, 0xF0,
   0xF0, 0x90, 0xF0, 0x10, 0xF0,
   0xF0, 0x90, 0xF0, 0x90, 0x90,
   0xE0, 0x90, 0xE0, 0x90, 0xE0,
   0xF0, 0x80, 0x80, 0x80, 0xF0,
   0xE0, 0x90, 0x90, 0x90, 0xE0,
   0xF0, 0x80, 0xF0, 0x80, 0xF0,
   0xF0, 0x80, 0xF0, 0x80, 0x80]

/-- The sequential byte-copy loop shape shared by the constructor's font
load (src lines 70-73, `memory[FONTSET_START_ADDRESS + i] = fontset[i]`)
and `LoadROM` (src lines 161-164, `memory[START_ADDRESS + i] = buffer[i]`):
each element of `bytes` is stored, in order, at consecutive addresses
starting at `start`; the store target is a `uint8_t` lvalue. -/
def copyBytes : List Nat → Nat → (Nat → Nat) → (Nat → Nat)
  | [], _, mem => mem
  | b :: rest, start, mem => copyBytes rest (start + 1) (writeArr mem start (b % 256))

/-- The constructor body `Chip8::Chip8` (src lines 64-124) acting on the
pre-construction member values `s` (for an automatic-storage object these
are indeterminate, so `s` is arbitrary).  The body sets `pc = 0x200` and
copies the 80 fontset bytes to addresses `0x50..0x9F`; it assigns no other
data member.  The dispatch-table assignments on src lines 81-96 fill the
local variable `table` declared on line 79 (`void (Chip8::*table[16])();`),
which shadows the member `table`, so they do not affect the state; the
member sub-table assignments (src lines 98-122) touch only the dispatch
tables, modelled separately below. -/
def construct (s : Chip8) : Chip8 :=
  { s with pc := 0x200, memory := copyBytes fontset 0x50 s.memory }

/-- `OP_NULL` (src lines 142-143): does nothing. -/
def OP_NULL (s : Chip8) : Chip8 := s

/-- `OP_00E0` (src lines 196-198): `memset(video, 0, VIDEO_HEIGHT * VIDEO_WIDTH)`.
The count is `32 * 64 = 2048` *bytes*; `video` is an array of 2048
`uint32_t` cells (4 bytes each), so only cells `0..511` are cleared. -/
def OP_00E0 (s : Chip8) : Chip8 :=
  { s with video := fun a => if a < 2048 / 4 then 0 else s.video a }

/-- `OP_00EE` (src lines 204-207): `--sp; pc = stack[sp];` with `sp : uint8_t`. -/
def OP_00EE (s : Chip8) : Chip8 :=
  let sp1 := (s.sp + 255) % 256
  { s with sp := sp1, pc := s.stack sp1 }

/-- `OP_1nnn` (src lines 213-216): `pc = opcode & 0x0FFF`. -/
def OP_1nnn (s : Chip8) : Chip8 :=
  { s with pc := s.opcode &&& 0x0FFF }

/-- `OP_2nnn` (src lines 222-228), exactly as written:
`address = opcode & 0x0FFF; pc = address; stack[sp] = pc; ++sp; pc = address;`.
Note the `pc = address` *before* the push: the value pushed is `address`,
not the return address. -/
def OP_2nnn (s : Chip8) : Chip8 :=
  let address := s.opcode &&& 0x0FFF
  let s1 := { s with pc := address }
  let s2 := { s1 with stack := writeArr s1.stack s1.sp (s1.pc % 65536),
                      sp := (s1.sp + 1) % 256 }
  { s2 with pc := address }

/-- `OP_8xy4` (src lines 335-346), exactly as written: the 9-bit sum is
computed first, `registers[15]` is set from it, and only then
`registers[Vx] += registers[Vy]` re-reads both registers (so if `Vx` or
`Vy` is 15 the flag value, not the original operand, takes part in the
final store).  The commented-out line 345 (`registers[Vx] = result & 0xFF`)
is not executed. -/
def OP_8xy4 (s : Chip8) : Chip8 :=
  let x := decodeX s.opcode
  let y := decodeY s.opcode
  let result := s.registers x + s.registers y
  let regs1 := writeArr s.registers 15 (if result > 255 then 1 else 0)
  { s with registers := writeArr regs1 x ((regs1 x + regs1 y) % 256) }

/-- `OP_8xy5` (src lines 354-363): `VF := Vx > Vy ? 1 : 0` first, then
`registers[Vx] -= registers[Vy]` (8-bit wraparound) re-reading both. -/
def OP_8xy5 (s : Chip8) : Chip8 :=
  let x := decodeX s.opcode
  let y := decodeY s.opcode
  let regs1 := writeArr s.registers 15 (if s.registers x > s.registers y then 1 else 0)
  { s with registers := writeArr regs1 x ((regs1 x + 256 - regs1 y % 256) % 256) }

/-- `OP_8xy6` (src lines 370-375): `registers[15] = registers[Vy] & 1;`
then `registers[Vx] = registers[Vy] >> 1;` — the second line re-reads
`registers[Vy]`, so when `Vy = 15` it reads the just-written flag. -/
def OP_8xy6 (s : Chip8) : Chip8 :=
  let x := decodeX s.opcode
  let y := decodeY s.opcode
  let regs1 := writeArr s.registers 15 (s.registers y &&& 0x1)
  { s with registers := writeArr regs1 x (regs1 y >>> 1) }

/-- `OP_8xyE` (src lines 399-404): `registers[15] = (registers[Vy] & 0xF0) >> 7;`
then `registers[Vx] = registers[Vy] << 1;` stored into a `uint8_t`. -/
def OP_8xyE (s : Chip8) : Chip8 :=
  let x := decodeX s.opcode
  let y := decodeY s.opcode
  let regs1 := writeArr s.registers 15 ((s.registers y &&& 0xF0) >>> 7)
  { s with registers := writeArr regs1 x ((regs1 y <<< 1) % 256) }

/-- `OP_Bnnn` (src lines 431-434): `pc = (opcode & 0x0FFF) + registers[0]`,
stored into the `uint16_t` program counter. -/
def OP_Bnnn (s : Chip8) : Chip8 :=
  { s with pc := ((s.opcode &&& 0x0FFF) + s.registers 0) % 65536 }

/-- The inner column loop of `OP_Dxyn` (src lines 467-481), expressed on
the number of columns still to process (`for (col = 0; col < 8; col++)`
with `colsLeft = 8 - col`): `spritePixel = spriteByte & (0x80 >> col)`;
the screen pixel address is `(yPos + row) * VIDEO_WIDTH` — the column and
`xPos` do not enter the address; the collision test sets `registers[15]`
to 1 when the sprite pixel is set and the cell holds `0xFFFFFFFF`; the
XOR with `0xFFFFFFFF` happens unconditionally (it sits outside the
`if (spritePixel)` block). -/
def drawCols (spriteByte addr : Nat) :
    Nat → Nat → (Nat → Nat) → (Nat → Nat) → (Nat → Nat) × (Nat → Nat)
  | 0, _, regs, video => (regs, video)
  | colsLeft + 1, col, regs, video =>
    let spritePixel := spriteByte &&& (0x80 >>> col)
    let regs1 := if spritePixel ≠ 0 ∧ video addr = 0xFFFFFFFF then writeArr regs 15 1 else regs
    let video1 := writeArr video addr (Nat.xor (video addr) 0xFFFFFFFF)
    drawCols spriteByte addr colsLeft (col + 1) regs1 video1

/-- The outer row loop of `OP_Dxyn` (src lines 464-482), expressed on the
number of rows still to process (`for (row = 0; row < height; row++)`
with `rowsLeft = height - row`): `spriteByte = memory[index + row]`, then
the column loop at screen address `(yPos + row) * 64`. -/
def drawRows (mem : Nat → Nat) (idx yPos : Nat) :
    Nat → Nat → (Nat → Nat) → (Nat → Nat) → (Nat → Nat) × (Nat → Nat)
  | 0, _, regs, video => (regs, video)
  | rowsLeft + 1, row, regs, video =>
    let spriteByte := mem (idx + row)
    let rv := drawCols spriteByte ((yPos + row) * 64) 8 0 regs video
    drawRows mem idx yPos rowsLeft (row + 1) rv.1 rv.2

/-- `OP_Dxyn` (src lines 454-483): computes `xPos = registers[Vx] % 64`
(never used afterwards) and `yPos = registers[Vy] % 32`, clears
`registers[15]`, then runs the row/column loops. -/
def OP_Dxyn (s : Chip8) : Chip8 :=
  let x := decodeX s.opcode
  let y := decodeY s.opcode
  let height := s.opcode &&& 0x000F
  let xPos := s.registers x % 64
  let yPos := s.registers y % 32
  let regs0 := writeArr s.registers 15 0
  let rv := drawRows s.memory s.index yPos height 0 regs0 s.video
  let _ := xPos
  { s with registers := rv.1, video := rv.2 }

/-- `OP_Fx29` (src lines 593-597), exactly as written:
`index += FONTSET_START_ADDRESS + (5 * digit)` — an increment (`+=`),
not an assignment, stored into the `uint16_t` index register. -/
def OP_Fx29 (s : Chip8) : Chip8 :=
  let x := decodeX s.opcode
  let digit := s.registers x
  { s with index := (s.index + (0x50 + 5 * digit)) % 65536 }

/-- `LoadROM` (src lines 145-169) reduced to its memory effect: every byte
of the input is copied to consecutive addresses starting at
`START_ADDRESS = 0x200`, with no size check and no error result of any
kind (`for (long i = 0; i < size; ++i) memory[START_ADDRESS + i] = buffer[i];`). -/
def LoadROM (bytes : List Nat) (s : Chip8) : Chip8 :=
  { s with memory := copyBytes bytes 0x200 s.memory }

/-- The member dispatch table `table` (src line 644):
`Chip8Func table[0xF + 1]{&Chip8::OP_NULL};` aggregate-initializes entry 0
to `OP_NULL` and value-initializes entries 1..15 to *null* member pointers
(modelled `none`).  The constructor's assignments `table[0x0] = ...` ..
`table[0xF] = ...` (src lines 81-96) target the local array declared on
src line 79, which shadows this member, so the member keeps its
in-class-initializer value. -/
def table : Nat → Option (Chip8 → Chip8) :=
  fun i => if i = 0 then some OP_NULL else none

/-- The two ways one call of `Cycle` runs into C++ undefined behaviour:
indexing `memory[4096]` past the end of the 4096-byte array during fetch,
and invoking a null pointer-to-member function from `table`. -/
inductive CycleErr where
  | fetchOOB
  | nullHandler
deriving DecidableEq

/-- `Cycle` (src lines 172-190): fetch
`opcode = (memory[pc] << 8) | memory[pc + 1]` (no bounds check — the two
reads are in bounds only when `pc + 1 ≤ 4095`), `pc += 2`, dispatch
through the member `table` on the top nibble, then decrement each timer
that is nonzero. -/
def Cycle (s : Chip8) : Except CycleErr Chip8 :=
  if s.pc + 1 ≥ 4096 then .error .fetchOOB
  else
    let op := (((s.memory s.pc % 256) <<< 8) ||| (s.memory (s.pc + 1) % 256)) % 65536
    let s1 := { s with opcode := op, pc := (s.pc + 2) % 65536 }
    match table ((op &&& 0xF000) >>> 12) with
    | none => .error .nullHandler
    | some h =>
      let s2 := h s1
      let s3 := { s2 with delayTimer := if s2.delayTimer > 0 then s2.delayTimer - 1 else s2.delayTimer }
      .ok { s3 with soundTimer := if s3.soundTimer > 0 then s3.soundTimer - 1 else s3.soundTimer }

/-- A machine state with every member zero except `pc = 0x200`; concrete
test states below are perturbations of it. -/
def zeroState : Chip8 :=
  { registers := fun _ => 0, memory := fun _ => 0, index := 0, pc := 0x200,
    stack := fun _ => 0, sp := 0, delayTimer := 0, soundTimer := 0,
    keypad := fun _ => 0, video := fun _ => 0, opcode := 0 }

/-- A state whose memory holds the instruction `0x1234` (`JP 0x234`) at
`pc = 0x200`. -/
def jpState : Chip8 :=
  { zeroState with
    memory := fun a => if a = 0x200 then 0x12 else if a = 0x201 then 0x34 else 0 }

/-- A state mid-`Cycle` about to execute `call 0xABC`: the fetched opcode
is `0x2ABC` and `pc` has already been advanced to `0x202`. -/
def callState : Chip8 := { zeroState with pc := 0x202, opcode := 0x2ABC }

/-- A state about to execute `add-reg V0, V15` (`0x80F4`) with
`V0 = 100`, `V15 = 200`. -/
def addRegState : Chip8 :=
  { zeroState with
    opcode := 0x80F4
    registers := fun i => if i = 0 then 100 else if i = 15 then 200 else 0 }

/-- A state about to execute `shr V0, V15` (`0x80F6`) with `V15 = 3`. -/
def shrAliasState : Chip8 :=
  { zeroState with
    opcode := 0x80F6
    registers := fun i => if i = 15 then 3 else 0 }

/-- A state about to execute `shr V1, V2` (`0x8126`) with every register 5. -/
def shrPlainState : Chip8 :=
  { zeroState with opcode := 0x8126, registers := fun _ => 5 }

/-- A state whose framebuffer is entirely set. -/
def fullVideoState : Chip8 := { zeroState with video := fun _ => 0xFFFFFFFF }

/-- A state about to execute `draw V0, V0, 1` (`0xD001`) with all
registers 0, `I = 0x200` and the single sprite row `0x80` at `0x200`. -/
def drawState : Chip8 :=
  { zeroState with
    opcode := 0xD001
    index := 0x200
    memory := fun a => if a = 0x200 then 0x80 else 0 }

/-- A state about to execute `font-char V0` (`0xF029`) with `V0 = 10`
(the digit `0xA`) and `I = 100`. -/
def fontCharState : Chip8 :=
  { zeroState with
    index := 100
    opcode := 0xF029
    registers := fun i => if i = 0 then 10 else 0 }

/-- A pre-construction state with nonzero junk in the members the
constructor never assigns (for an automatic-storage `Chip8` these are
indeterminate). -/
def junkState : Chip8 :=
  { registers := fun i => if i = 0 then 9 else 0,
    memory := fun a => if a = 0 then 8 else 0,
    index := 3, pc := 0, stack := fun i => if i = 0 then 4 else 0, sp := 7,
    delayTimer := 5, soundTimer := 6, keypad := fun i => if i = 0 then 1 else 0,
    video := fun v => if v = 0 then 1 else 0, opcode := 0 }

/-- A state about to execute `jump-offset 0xFFF` (`0xBFFF`) with `V0 = 0xFF`. -/
def jumpOffsetState : Chip8 :=
  { zeroState with
    opcode := 0xBFFF
    registers := fun i => if i = 0 then 0xFF else 0 }

end Chip8

open Chip8

theorem writeArr_self (f : Nat → Nat) (i v : Nat) : writeArr f i v i = v := by
  simp [writeArr]

theorem writeArr_other (f : Nat → Nat) {i j : Nat} (v : Nat) (h : j ≠ i) :
    writeArr f i v j = f j := by
  simp [writeArr, h]

/-- For byte values, the flag expression `(v & 0xF0) >> 7` of `OP_8xyE`
equals the most-significant bit of `v`. -/
theorem msb_byte (v : Nat) (hv : v < 256) :
    (v &&& 0xF0) >>> 7 = if v &&& 0x80 ≠ 0 then 1 else 0 := by
  have h2 : ∀ w : Fin 256, ((w : Nat) &&& 0xF0) >>> 7 =
      if (w : Nat) &&& 0x80 ≠ 0 then 1 else 0 := by decide
  exact h2 ⟨v, hv⟩

/-- C1: the claim says every decoded (class, sub-field) pair dispatches to
its defined handler, or to a state-preserving no-op, and that dispatch
never invokes an undefined handler.  In the code the constructor fills a
*local* array shadowing the member `table`, so the member keeps its
in-class initializer: entry 0 is `OP_NULL` and entries 1..15 are null
member pointers.  Fetching the defined instruction `0x1234` (`JP 0x234`)
therefore invokes a null handler (undefined behaviour), instead of
`OP_1nnn`. -/
theorem cycle_dispatches_null_member :
    Chip8.table 1 = none ∧ Cycle jpState = .error CycleErr.nullHandler :=
  ⟨rfl, rfl⟩

/-- C2: the claim says `call nnn` pushes the already-advanced `pc` (the
return address) before setting `pc := nnn`.  Evaluating `OP_2nnn` at
`pc = 0x202`, `opcode = 0x2ABC`: the pushed entry is `0xABC` (the call
target), not `0x202`, so the subsequent `OP_00EE` restores `pc` to the
call target rather than the instruction after the call. -/
theorem call_pushes_target_not_return :
    (OP_2nnn callState).stack 0 = 0xABC ∧
    (OP_2nnn callState).stack 0 ≠ 0x202 ∧
    (OP_00EE (OP_2nnn callState)).pc = 0xABC := by
  decide

/-- C4: the claim says `add-reg` stores the original 9-bit sum modulo 256
into `Vx`, also when an operand is register 15.  Evaluating `OP_8xy4` at
`add-reg V0, V15` with `V0 = 100`, `V15 = 200`: the flag (1, correct) is
written first, then `registers[V0] += registers[V15]` re-reads register
15 and stores `100 + 1 = 101`, not `(100 + 200) % 256 = 44`. -/
theorem add_reg_uses_overwritten_flag :
    (OP_8xy4 addRegState).registers 0 = 101 ∧
    (OP_8xy4 addRegState).registers 15 = 1 ∧
    (addRegState.registers 0 + addRegState.registers 15) % 256 = 44 := by
  decide

/-- C6: the claim says `clear-screen` clears every one of the 64×32 cells.
`OP_00E0` runs `memset(video, 0, 2048)` on an array of 2048 4-byte cells,
so only cells 0..511 are cleared: starting from an all-set framebuffer,
cell 0 is cleared but cell 512 is still set. -/
theorem clear_screen_clears_quarter :
    (OP_00E0 fullVideoState).video 0 = 0 ∧
    (OP_00E0 fullVideoState).video 511 = 0 ∧
    (OP_00E0 fullVideoState).video 512 = 0xFFFFFFFF ∧
    (OP_00E0 fullVideoState).video 2047 = 0xFFFFFFFF := by
  decide

/-- C7: the claim says `font-char` assigns `I := fontBase + 5 * Vx`.
`OP_Fx29` instead *increments*: at `I = 100`, `V0 = 0xA` it yields
`I = 100 + 0x50 + 50 = 230`, not `fontBase + 50 = 130`.  The glyph bytes
themselves are correct: after construction the five bytes at
`0x50 + 50 = 130` are the fixed A glyph. -/
theorem font_char_increments_index :
    (OP_Fx29 fontCharState).index = 230 ∧ (230 : Nat) ≠ 0x50 + 5 * 10 ∧
    (construct zeroState).memory 130 = 0xF0 ∧
    (construct zeroState).memory 131 = 0x90 ∧
    (construct zeroState).memory 132 = 0xF0 ∧
    (construct zeroState).memory 133 = 0x90 ∧
    (construct zeroState).memory 134 = 0x90 := by
  decide

/-- C3: the claim says each sprite bit is XORed exactly onto the cell
`((Vx + col) mod 64, (Vy + row) mod 32)`, with VF = 1 iff a set sprite
bit targets a set cell.  Evaluating `OP_Dxyn` at `draw V0, V0, 1` with
`V0 = 0`, `I = 0x200`, sprite row `0x80`, all cells clear: the claim
requires cell (0, 0) (index 0) to end up set (its sprite bit is 1 and it
was clear), but the code XORs the cell `video[(yPos + row) * 64]` once
per column — eight times in total, because the column never enters the
address and the XOR runs even for clear sprite bits — so cell 0 ends up
unchanged (clear). -/
theorem draw_ignores_column_in_address :
    (OP_Dxyn drawState).video 0 = 0 ∧
    (OP_Dxyn drawState).registers 15 = 0 ∧
    drawState.memory drawState.index &&& 0x80 ≠ 0 ∧
    drawState.video 0 = 0 := by
  decide

/-- C5 counterexample: the claim says `shr Vx, Vy` leaves the original
`Vy >> 1` in `Vx` also when `Vy = 15`.  At `shr V0, V15` with `V15 = 3`,
`registers[15]` is first overwritten with the flag `3 & 1 = 1`, and the
shift then re-reads register 15, storing `1 >> 1 = 0` instead of
`3 >> 1 = 1`. -/
theorem shr_aliased_vy_not_shifted :
    (OP_8xy6 shrAliasState).registers 0 ≠ shrAliasState.registers 15 >>> 1 := by
  decide

/-- C5 (amended): `shr`/`shl` write VF first and then the shifted value,
so: VF holds the pre-shift least-significant (resp. most-significant) bit
of the original Vy whenever `Vx ≠ 15` (the result store would overwrite
it), and `Vx` holds the original `Vy` shifted whenever `Vy ≠ 15` (the
flag store would be re-read).  Both parts hold together for all
`Vx, Vy ≠ 15`, including `Vx = Vy`. -/
theorem shift_flag_first_semantics (s : Chip8)
    (hby : s.registers (decodeY s.opcode) < 256) :
    (decodeX s.opcode ≠ 15 →
      (OP_8xy6 s).registers 15 = s.registers (decodeY s.opcode) &&& 0x1) ∧
    (decodeY s.opcode ≠ 15 →
      (OP_8xy6 s).registers (decodeX s.opcode) = s.registers (decodeY s.opcode) >>> 1) ∧
    (decodeX s.opcode ≠ 15 →
      (OP_8xyE s).registers 15 =
        if s.registers (decodeY s.opcode) &&& 0x80 ≠ 0 then 1 else 0) ∧
    (decodeY s.opcode ≠ 15 →
      (OP_8xyE s).registers (decodeX s.opcode) =
        (s.registers (decodeY s.opcode) <<< 1) % 256) := by
  refine ⟨fun h => ?_, fun h => ?_, fun h => ?_, fun h => ?_⟩
  · show writeArr (writeArr s.registers 15 (s.registers (decodeY s.opcode) &&& 0x1))
        (decodeX s.opcode)
        (writeArr s.registers 15 (s.registers (decodeY s.opcode) &&& 0x1)
          (decodeY s.opcode) >>> 1)
        15 = s.registers (decodeY s.opcode) &&& 0x1
    rw [writeArr_other _ _ (Ne.symm h), writeArr_self]
  · show writeArr (writeArr s.registers 15 (s.registers (decodeY s.opcode) &&& 0x1))
        (decodeX s.opcode)
        (writeArr s.registers 15 (s.registers (decodeY s.opcode) &&& 0x1)
          (decodeY s.opcode) >>> 1)
        (decodeX s.opcode) = s.registers (decodeY s.opcode) >>> 1
    rw [writeArr_self, writeArr_other _ _ h]
  · show writeArr (writeArr s.registers 15 ((s.registers (decodeY s.opcode) &&& 0xF0) >>> 7))
        (decodeX s.opcode)
        ((writeArr s.registers 15 ((s.registers (decodeY s.opcode) &&& 0xF0) >>> 7)
          (decodeY s.opcode) <<< 1) % 256)
        15 = if s.registers (decodeY s.opcode) &&& 0x80 ≠ 0 then 1 else 0
    rw [writeArr_other _ _ (Ne.symm h), writeArr_self]
    exact msb_byte _ hby
  · show writeArr (writeArr s.registers 15 ((s.registers (decodeY s.opcode) &&& 0xF0) >>> 7))
        (decodeX s.opcode)
        ((writeArr s.registers 15 ((s.registers (decodeY s.opcode) &&& 0xF0) >>> 7)
          (decodeY s.opcode) <<< 1) % 256)
        (decodeX s.opcode) = (s.registers (decodeY s.opcode) <<< 1) % 256
    rw [writeArr_self, writeArr_other _ _ h]

/-- C5 witness: the amended statement applied at `shr V1, V2` with all
registers 5: VF ends as `5 & 1 = 1` and `V1` as `5 >> 1 = 2`. -/
theorem shift_flag_first_semantics_witness :
    (OP_8xy6 shrPlainState).registers 15 = 1 ∧
    (OP_8xy6 shrPlainState).registers (decodeX shrPlainState.opcode) = 2 := by
  obtain ⟨h1, h2, h3, h4⟩ := shift_flag_first_semantics shrPlainState (by decide)
  refine ⟨?_, ?_⟩
  · rw [h1 (by decide)]; decide
  · rw [h2 (by decide)]; decide

/-- C8: the claim says `reset()` zeroes registers, non-font memory,
stack, timers, keypad, framebuffer and sets `sp = 0`, `I = 0`.  The
constructor only sets `pc = 0x200` and writes the 80 font bytes at
`0x50..0x9F`; starting from a pre-construction state with nonzero junk,
every other member keeps its junk value. -/
theorem construct_skips_zeroing :
    (construct junkState).pc = 0x200 ∧
    (construct junkState).memory 0x50 = 0xF0 ∧
    (construct junkState).memory 0x9F = 0x80 ∧
    (construct junkState).sp = 7 ∧
    (construct junkState).registers 0 = 9 ∧
    (construct junkState).index = 3 ∧
    (construct junkState).delayTimer = 5 ∧
    (construct junkState).soundTimer = 6 ∧
    (construct junkState).stack 0 = 4 ∧
    (construct junkState).keypad 0 = 1 ∧
    (construct junkState).video 0 = 1 ∧
    (construct junkState).memory 0 = 8 := by
  decide

/-- The copy loop writes its final byte at `start + bytes.length`. -/
theorem copyBytes_last (b : Nat) :
    ∀ (bytes : List Nat) (start : Nat) (mem : Nat → Nat),
      copyBytes (bytes ++ [b]) start mem (start + bytes.length) = b % 256 := by
  intro bytes
  induction bytes with
  | nil => intro start mem; exact writeArr_self mem start (b % 256)
  | cons c rest ih =>
      intro start mem
      show copyBytes (rest ++ [b]) (start + 1) (writeArr mem start (c % 256))
        (start + (rest.length + 1)) = b % 256
      rw [show start + (rest.length + 1) = (start + 1) + rest.length by omega]
      exact ih (start + 1) (writeArr mem start (c % 256))

/-- C9: the claim says `load(bytes)` fails with `RomTooLarge`, writing
nothing, when the sequence is longer than `4096 - 0x200 = 3584` bytes.
`LoadROM` performs no size check and has no error result: loading 3585
bytes of value 7 writes all of them, the last one at address
`0x200 + 3584 = 4096`, one past the end of the 4096-byte memory array. -/
theorem loadrom_overflows_memory :
    (LoadROM (List.replicate 3585 7) zeroState).memory 4096 = 7 ∧
    zeroState.memory 4096 = 0 ∧
    3585 > 4096 - 0x200 := by
  refine ⟨?_, rfl, by norm_num⟩
  have h1 : List.replicate 3585 7 = List.replicate 3584 7 ++ [7] := by
    rw [show (3585 : Nat) = 3584 + 1 from rfl, List.replicate_succ']
  have h2 := copyBytes_last 7 (List.replicate 3584 7) 0x200 zeroState.memory
  rw [List.length_replicate] at h2
  rw [show (0x200 : Nat) + 3584 = 4096 from rfl] at h2
  rw [show (7 : Nat) % 256 = 7 from rfl] at h2
  have h3 : ∀ (bytes : List Nat) (s : Chip8),
      (LoadROM bytes s).memory = copyBytes bytes 0x200 s.memory := fun _ _ => rfl
  rw [h3, h1]
  exact h2

/-- C10: the fetch in `Cycle` reads `memory[pc]` and `memory[pc + 1]`
with no bounds check, and `OP_Bnnn` (`jump-offset`) can set
`pc = 0xFFF + 0xFF = 0x10FE > 4094`, after which the next fetch indexes
the 4096-byte memory array out of bounds. -/
theorem jump_offset_escapes_fetch :
    (OP_Bnnn jumpOffsetState).pc = 0x10FE ∧
    4094 < (OP_Bnnn jumpOffsetState).pc ∧
    Cycle (OP_Bnnn jumpOffsetState) = .error CycleErr.fetchOOB :=
  ⟨by decide, by decide, rfl⟩
